import Mathlib

/-
  Verification of the uniapp-frontend-skills templates.

  Shallow embedding of the executable patterns shipped by the skill:
  the page template (src/assets/page-template.vue), the list/detail/form
  page patterns (src/references/page-patterns.md), the Pinia theme store
  (src/references/theme-guide.md), and the declarative shapes from
  src/SKILL.md (pages.json entry, theme.scss tokens, the Item interface).

  Stateful template code is embedded as pure functions from an explicit
  state (plus the outcome of the awaited call, supplied as a parameter)
  to the final state together with a sequential trace of the observable
  actions the handler performs, in program order.
-/

namespace UniappSkill

/-- Model of a thrown JavaScript value: either an `Error` instance carrying a
message, or any other thrown value (`err instanceof Error` is false). -/
inductive JsErr where
  | jsError (msg : String)
  | otherThrown
deriving DecidableEq, Repr

/-- Observable actions a template handler performs, recorded in program order.
`awaitTimeout ms` is the act of awaiting the simulated-network-delay promise
`new Promise(resolve => setTimeout(resolve, ms))`; `awaitValidate` is awaiting
`formRef.value.validate()`; `scheduleTimeout` is a fire-and-forget
`setTimeout` (not awaited); the rest are state writes and uni-app API calls. -/
inductive Ev where
  | setLoading (b : Bool)
  | setSubmitting (b : Bool)
  | setErrorState (e : Option String)
  | awaitTimeout (ms : Nat)
  | awaitValidate
  | setItemsEmpty
  | showToast (title : String) (icon : String)
  | consoleError
  | scheduleTimeout (ms : Nat)
  | navigateTo (url : String)
deriving DecidableEq, Repr

/-- The Item shape used by the page template at runtime
(src/assets/page-template.vue lines 39-44); the index signature allows
extra fields, which are irrelevant to the behavior of the template. -/
structure Item where
  id : Int
  title : String
  description : Option String
deriving DecidableEq, Repr

/-- Reactive state of src/assets/page-template.vue (lines 47-49). -/
structure PageState where
  loading : Bool
  items : List Item
  error : Option String
deriving DecidableEq, Repr

/-- Embedding of loadData from src/assets/page-template.vue lines 69-90.
The parameter `awaited` is the outcome of the awaited simulated API call:
`Except.ok ()` when the promise resolves (which the shipped placeholder,
a plain setTimeout, always does), `Except.error e` for a hypothetical
rejection, which selects the catch branch. -/
def loadData (s : PageState) (awaited : Except JsErr Unit) : PageState × List Ev :=
  let s1 : PageState := { s with loading := true }
  let s2 : PageState := { s1 with error := none }
  match awaited with
  | .ok _ =>
      let s3 : PageState := { s2 with items := [] }
      let s4 : PageState := { s3 with loading := false }
      (s4, [Ev.setLoading true, Ev.setErrorState none, Ev.awaitTimeout 1000,
            Ev.setItemsEmpty, Ev.setLoading false])
  | .error e =>
      let msg : String :=
        match e with
        | .jsError m => m
        | .otherThrown => "Failed to load data"
      let s3 : PageState := { s2 with error := some msg }
      let s4 : PageState := { s3 with loading := false }
      (s4, [Ev.setLoading true, Ev.setErrorState none, Ev.awaitTimeout 1000,
            Ev.setErrorState (some msg), Ev.showToast msg "none",
            Ev.setLoading false])

/-- Embedding of onItemClick from src/assets/page-template.vue lines 92-96. -/
def onItemClick (it : Item) : List Ev :=
  [Ev.navigateTo ("/pages/detail/index?id=" ++ toString it.id)]

/-- Embedding of onRefresh from src/assets/page-template.vue lines 98-100:
it just invokes loadData. -/
def onRefresh (s : PageState) (awaited : Except JsErr Unit) : PageState × List Ev :=
  loadData s awaited

/-- The Item shape of the list-page pattern
(src/references/page-patterns.md lines 79-85). -/
structure ListPageItem where
  id : Int
  title : String
  status : Int
  createdAt : String
  category : String
deriving DecidableEq, Repr

/-- Reactive state of the list-page pattern
(src/references/page-patterns.md lines 87-90). -/
structure ListPageState where
  searchText : String
  currentTab : Nat
  loading : Bool
  items : List ListPageItem
deriving DecidableEq, Repr

/-- Embedding of loadData from the list-page pattern
(src/references/page-patterns.md lines 120-130): try/finally with no catch
and no awaited call in the shipped placeholder body. -/
def listLoadData (s : ListPageState) : ListPageState × List Ev :=
  let s1 : ListPageState := { s with loading := true }
  let s2 : ListPageState := { s1 with items := [] }
  let s3 : ListPageState := { s2 with loading := false }
  (s3, [Ev.setLoading true, Ev.setItemsEmpty, Ev.setLoading false])

/-- Embedding of handleSubmit from the form-page pattern
(src/references/page-patterns.md lines 532-551). The parameter is the outcome
of the awaited `formRef.value.validate()` call: `.ok valid` when it resolves
with a boolean, `.error e` when it rejects, which selects the catch branch
(`console.error(error)`). The finally branch always clears `submitting`.
Returns the final value of the `submitting` flag and the trace. -/
def handleSubmit (validateOutcome : Except JsErr Bool) : Bool × List Ev :=
  match validateOutcome with
  | .ok valid =>
      if !valid then
        (false, [Ev.awaitValidate, Ev.setSubmitting false])
      else
        (false, [Ev.awaitValidate, Ev.setSubmitting true,
                 Ev.showToast "Success" "success", Ev.scheduleTimeout 1500,
                 Ev.setSubmitting false])
  | .error _ =>
      (false, [Ev.awaitValidate, Ev.consoleError, Ev.setSubmitting false])

/-- An event is an awaited asynchronous operation. -/
def isAwaitEv : Ev → Bool
  | .awaitTimeout _ => true
  | .awaitValidate => true
  | _ => false

/-- An event is a transient notification (uni.showToast). -/
def isToastEv : Ev → Bool
  | .showToast _ _ => true
  | _ => false

/-- The error-handling convention the spec states, as a property of an
error-path trace: the caught error is displayed via a toast, and the final
step clears the busy flag (loading or submitting). -/
def errConvention (trace : List Ev) : Prop :=
  trace.any isToastEv = true ∧
  (trace.getLast? = some (Ev.setLoading false) ∨
   trace.getLast? = some (Ev.setSubmitting false))

/-- The Theme record of src/references/theme-guide.md lines 195-206. -/
structure Theme where
  name : String
  primary : String
  primaryDark : String
  success : String
  warning : String
  error : String
  textPrimary : String
  textSecondary : String
  bgPage : String
  bgCard : String
deriving DecidableEq, Repr

/-- The built-in default theme (theme-guide.md lines 212-223). -/
def defaultTheme : Theme :=
  { name := "Default", primary := "#1890ff", primaryDark := "#096dd9"
    success := "#52c41a", warning := "#faad14", error := "#f5222d"
    textPrimary := "#333333", textSecondary := "#999999"
    bgPage := "#f5f5f5", bgCard := "#ffffff" }

/-- The built-in dark theme (theme-guide.md lines 224-235). -/
def darkTheme : Theme :=
  { name := "Dark", primary := "#177ddc", primaryDark := "#1765ad"
    success := "#49aa19", warning := "#d89614", error := "#d32029"
    textPrimary := "#ffffff", textSecondary := "#8c8c8c"
    bgPage := "#141414", bgCard := "#1f1f1f" }

/-- The `themes` record of the store state (theme-guide.md lines 211-236),
as an association list keyed by theme name. -/
def themes : List (String × Theme) :=
  [("default", defaultTheme), ("dark", darkTheme)]

/-- State of the theme store together with the persisted uni-app storage
slot for the key "theme": `storage = some n` after `uni.setStorageSync`
wrote `n`, `none` when nothing was ever persisted. -/
structure ThemeStore where
  currentTheme : String
  storage : Option String
deriving DecidableEq, Repr

/-- Initial store state (theme-guide.md lines 209-210):
currentTheme is "default"; nothing persisted yet. -/
def themeInit : ThemeStore := { currentTheme := "default", storage := none }

/-- The getter `theme` (theme-guide.md lines 239-241): the entry of the
themes record keyed by the current theme name (undefined when absent). -/
def themeGetter (st : ThemeStore) : Option Theme :=
  themes.lookup st.currentTheme

/-- The action setTheme (theme-guide.md lines 244-251): when the given name
is not a key of themes, log an error and return leaving everything
unchanged; otherwise update currentTheme and persist the name via
`uni.setStorageSync` under the key "theme". -/
def setTheme (st : ThemeStore) (themeName : String) : ThemeStore :=
  match themes.lookup themeName with
  | none => st
  | some _ => { st with currentTheme := themeName, storage := some themeName }

/-- The action loadSavedTheme (theme-guide.md lines 253-258):
`uni.getStorageSync` under the key "theme" yields the persisted name, or the empty string
(falsy) when nothing is stored; the saved name is adopted only when it is
truthy and a key of themes. -/
def loadSavedTheme (st : ThemeStore) : ThemeStore :=
  let saved : String := st.storage.getD ""
  if saved.isEmpty then st
  else
    match themes.lookup saved with
    | some _ => { st with currentTheme := saved }
    | none => st

/-- The store invariant: the selected theme name is a key of `themes`. -/
def validTheme (st : ThemeStore) : Prop :=
  (themes.lookup st.currentTheme).isSome = true

instance (st : ThemeStore) : Decidable (validTheme st) :=
  inferInstanceAs (Decidable ((themes.lookup st.currentTheme).isSome = true))

/-- TypeScript type annotations occurring in the Item interface. -/
inductive TsTy where
  | num
  | str
deriving DecidableEq, Repr

/-- A declared interface field: its name, whether it is required
(no question mark), and its annotated type. -/
structure FieldSpec where
  fname : String
  required : Bool
  ty : TsTy
deriving DecidableEq, Repr

/-- The fields declared by the Item interface of src/assets/page-template.vue
lines 39-44, in declaration order: `id: number`, `title: string`,
`description?: string`. The interface additionally carries the index
signature `[key: string]: any`, which declares no required field; it is
recorded separately below. -/
def itemInterfaceFields : List FieldSpec :=
  [{ fname := "id", required := true, ty := TsTy.num },
   { fname := "title", required := true, ty := TsTy.str },
   { fname := "description", required := false, ty := TsTy.str }]

/-- The index signature of the Item interface, `[key: string]: any`
(src/assets/page-template.vue line 43). -/
def itemInterfaceHasIndexSignature : Bool := true

/-- A JSON value, as far as the configuration examples of the skill need. -/
inductive JVal where
  | jstr (s : String)
  | jobj (fields : List (String × JVal))

/-- Keys of a JSON object (empty for non-objects). -/
def jkeys : JVal → List String
  | .jobj fs => fs.map Prod.fst
  | _ => []

/-- Field access on a JSON object. -/
def jget : JVal → String → Option JVal
  | .jobj fs, k => fs.lookup k
  | _, _ => none

/-- The pages.json page-registration example of src/SKILL.md lines 24-35. -/
def skillPagesEntry : JVal :=
  .jobj [("path", .jstr "pages/newpage/index"),
         ("style", .jobj [("navigationBarTitleText", .jstr "Page Title")])]

/-- The identical pages.json page-registration example repeated in the
repository README (the quick-example section). -/
def readmePagesEntry : JVal :=
  .jobj [("path", .jstr "pages/newpage/index"),
         ("style", .jobj [("navigationBarTitleText", .jstr "Page Title")])]

/-- Every page-registration entry shown in the skill documents. -/
def pageRegistrationExamples : List JVal :=
  [skillPagesEntry, readmePagesEntry]

/-- The recommended page-registration entry shape: exactly a "path" key
holding a string and a "style" key holding an object whose
navigationBarTitleText is a string. -/
def pageEntryShape (v : JVal) : Bool :=
  (jkeys v == ["path", "style"]) &&
  (match jget v "path" with
   | some (.jstr _) => true
   | _ => false) &&
  (match jget v "style" with
   | some st =>
       match jget st "navigationBarTitleText" with
       | some (.jstr _) => true
       | _ => false
   | none => false)

/-- The SCSS variables defined by the recommended theme.scss of
src/SKILL.md lines 120-155 (each listed without its leading dollar sign). -/
def themeScssTokens : List String :=
  ["theme-primary", "theme-success", "theme-warning", "theme-error",
   "color-text-primary", "color-text-regular", "color-text-secondary",
   "color-bg-page", "color-bg-card",
   "spacing-xs", "spacing-sm", "spacing-md", "spacing-lg", "spacing-xl",
   "font-size-xs", "font-size-sm", "font-size-base", "font-size-lg",
   "font-size-xl",
   "border-radius-sm", "border-radius-md", "border-radius-lg",
   "border-radius-circle"]

/-- The SCSS variables referenced by the style block of
src/assets/page-template.vue lines 103-139, in order of first reference. -/
def pageTemplateStyleVars : List String :=
  ["color-bg-page", "color-bg-card", "spacing-md", "font-size-xl",
   "color-text-primary", "spacing-xs", "font-size-sm",
   "color-text-secondary", "spacing-xl"]

/-- Whether `pat` is a leading segment of `l`. -/
def listHasPre : List Char → List Char → Bool
  | [], _ => true
  | _ :: _, [] => false
  | p :: ps, c :: cs => p == c && listHasPre ps cs

/-- Whether `pat` occurs contiguously inside `l`
(the semantics of the JavaScript String.includes method on the character level). -/
def listHasSub (pat : List Char) : List Char → Bool
  | [] => pat.isEmpty
  | c :: cs => listHasPre pat (c :: cs) || listHasSub pat cs

/-- Whether `pat` is a leading segment of `s`. -/
def strHasPre (pat s : String) : Bool :=
  listHasPre pat.toList s.toList

/-- JavaScript `s.includes(pat)`. -/
def strIncludes (s pat : String) : Bool :=
  listHasSub pat.toList s.toList

/-- JavaScript `s.toLowerCase()`, modelled character by character. -/
def strToLower (s : String) : String :=
  String.mk (s.toList.map Char.toLower)

/-- The four design-token categories named by the spec. -/
inductive TokenCategory where
  | color
  | spacing
  | typography
  | radius
deriving DecidableEq, Repr

/-- Category of a theme.scss token, read from its name: theme-* and color-*
variables are colors, spacing-* spacing, font-size-* typography,
border-radius-* radius. -/
def tokenCategory (n : String) : Option TokenCategory :=
  if strHasPre "theme-" n || strHasPre "color-" n then some TokenCategory.color
  else if strHasPre "spacing-" n then some TokenCategory.spacing
  else if strHasPre "font-size-" n then some TokenCategory.typography
  else if strHasPre "border-radius-" n then some TokenCategory.radius
  else none

/-- Embedding of the computed filteredItems of the list-page pattern
(src/references/page-patterns.md lines 98-114), as a function of the
reactive inputs it reads. First, when currentTab > 0, keep the items
whose status equals currentTab - 1; then, when searchText is truthy
(non-empty), keep the items whose lower-cased title includes the
lower-cased search text. -/
def filteredItems (items : List ListPageItem) (currentTab : Nat)
    (searchText : String) : List ListPageItem :=
  let l1 : List ListPageItem :=
    if currentTab > 0 then
      items.filter (fun it => it.status == (currentTab : Int) - 1)
    else items
  if searchText = "" then l1
  else l1.filter (fun it => strIncludes (strToLower it.title) (strToLower searchText))

namespace ListPage

/-- The status-to-label map of the list-page pattern
(src/references/page-patterns.md line 145). -/
def statusTextMap : List (Int × String) := [(0, "Pending"), (1, "Completed")]

/-- The status-to-tag-type map of the list-page pattern
(src/references/page-patterns.md line 150). -/
def statusTypeMap : List (Int × String) := [(0, "warning"), (1, "success")]

/-- JavaScript `a || b` where `a` is a possibly-undefined string lookup:
the fallback is used when the lookup is undefined or falsy (empty). -/
def jsOrElse (a : Option String) (b : String) : String :=
  match a with
  | some s => if s.isEmpty then b else s
  | none => b

/-- getStatusText of the list-page pattern
(src/references/page-patterns.md lines 144-147). -/
def getStatusText (status : Int) : String :=
  jsOrElse (statusTextMap.lookup status) "Unknown"

/-- getStatusType of the list-page pattern
(src/references/page-patterns.md lines 149-152). -/
def getStatusType (status : Int) : String :=
  jsOrElse (statusTypeMap.lookup status) "default"

end ListPage

namespace DetailPage

/-- getStatusText of the detail-page pattern
(src/references/page-patterns.md lines 312-315); its map is textually
identical to the list-page one. -/
def getStatusText (status : Int) : String :=
  ListPage.jsOrElse (List.lookup status [(0, "Pending"), (1, "Completed")]) "Unknown"

/-- getStatusType of the detail-page pattern
(src/references/page-patterns.md lines 317-320). -/
def getStatusType (status : Int) : String :=
  ListPage.jsOrElse (List.lookup status [(0, "warning"), (1, "success")]) "default"

end DetailPage

end UniappSkill

namespace UniappSkill

/-- C1: loadData of the page template sets the loading flag, clears the error,
awaits the single placeholder delay, populates the items list and clears the
loading flag, in exactly that order on the success path (the only path the
shipped placeholder can take, since its awaited promise always resolves);
and loading is false when loadData completes on every path, success or error. -/
theorem loadData_follows_page_loading_pattern :
    ∀ (s : PageState) (o : Except JsErr Unit),
      (loadData s o).1.loading = false ∧
      (loadData s o).2.head? = some (Ev.setLoading true) ∧
      (loadData s o).2.getLast? = some (Ev.setLoading false) ∧
      (loadData s (Except.ok ())).2 =
        [Ev.setLoading true, Ev.setErrorState none, Ev.awaitTimeout 1000,
         Ev.setItemsEmpty, Ev.setLoading false] := by
  intro s o
  refine ⟨?_, ?_, ?_, rfl⟩ <;> cases o <;> simp [loadData]

/-- C4: on every execution path, the page template awaits exactly one
asynchronous operation, and that operation is the single 1000 ms simulated
network delay inside loadData; the click handler starts none. Traces are
sequential lists of completed steps, so the one awaited operation cannot
overlap another. -/
theorem loadData_single_awaited_delay :
    ∀ (s : PageState) (o : Except JsErr Unit) (it : Item),
      (loadData s o).2.filter isAwaitEv = [Ev.awaitTimeout 1000] ∧
      (loadData s o).2.countP isAwaitEv = 1 ∧
      (onRefresh s o).2.countP isAwaitEv = 1 ∧
      (onItemClick it).countP isAwaitEv = 0 := by
  intro s o it
  refine ⟨?_, ?_, ?_, ?_⟩ <;> cases o <;>
    simp [loadData, onRefresh, onItemClick, isAwaitEv, List.countP, List.countP.go]

/-- C2 counterexample: handleSubmit of the form-page pattern does not follow
the stated convention on its error path: when the awaited validate() call
rejects, the catch branch logs to the console and shows no toast, so the
caught error is not displayed to the user via a transient notification. -/
theorem handleSubmit_error_path_shows_no_toast :
    ¬ errConvention (handleSubmit (Except.error (JsErr.jsError "boom"))).2 := by
  intro h
  have := h.1
  simp [handleSubmit, errConvention, isToastEv] at this

/-- C2 amended: every awaited-call handler shown in the templates clears its
busy flag (loading or submitting) as the final, finally-step action on every
path; loadData of the page template additionally displays the caught error via
a toast on its error path, but handleSubmit of the form page handles the caught
error by logging it to the console without any toast, and the list-page
loadData has no catch branch at all. -/
theorem templates_clear_flag_in_finally :
    ∀ (s : PageState) (ls : ListPageState) (e : JsErr) (o : Except JsErr Unit)
      (v : Except JsErr Bool),
      (loadData s o).2.getLast? = some (Ev.setLoading false) ∧
      (listLoadData ls).2.getLast? = some (Ev.setLoading false) ∧
      (handleSubmit v).2.getLast? = some (Ev.setSubmitting false) ∧
      errConvention (loadData s (Except.error e)).2 ∧
      (handleSubmit (Except.error e)).2.any isToastEv = false ∧
      Ev.consoleError ∈ (handleSubmit (Except.error e)).2 := by
  intro s ls e o v
  refine ⟨?_, ?_, ?_, ⟨?_, Or.inl ?_⟩, ?_, ?_⟩
  · cases o <;> simp [loadData]
  · simp [listLoadData]
  · rcases v with je | b
    · simp [handleSubmit]
    · cases b <;> simp [handleSubmit]
  · simp [loadData, isToastEv]
  · simp [loadData]
  · simp [handleSubmit, isToastEv]
  · simp [handleSubmit]

/-- C3 counterexample: setTheme does not update and persist for every given
name: called with the name "missing", which is not a key of themes, it
neither sets currentTheme to "missing" nor persists "missing" to storage. -/
theorem setTheme_missing_name_is_noop :
    ¬ ((setTheme themeInit "missing").currentTheme = "missing" ∧
       (setTheme themeInit "missing").storage = some "missing") := by
  decide

/-- C3 amended: the getter maps the currently selected theme name to the
entry of the themes record keyed by currentTheme; and setTheme called with a
name that is a key of themes updates currentTheme to that name and persists
it to storage, while setTheme called with a name absent from themes leaves
the store and the storage unchanged. -/
theorem themeStore_getter_and_setTheme (st : ThemeStore) (n : String) :
    themeGetter st = themes.lookup st.currentTheme ∧
    ((themes.lookup n).isSome = true →
      (setTheme st n).currentTheme = n ∧ (setTheme st n).storage = some n) ∧
    (themes.lookup n = none → setTheme st n = st) := by
  refine ⟨rfl, ?_, ?_⟩
  · intro h
    rcases hl : themes.lookup n with _ | t
    · rw [hl] at h; simp at h
    · simp [setTheme, hl]
  · intro h
    simp [setTheme, h]

/-- Witness for the C3 amended theorem at the concrete name "dark". -/
theorem themeStore_getter_and_setTheme_witness :
    (setTheme themeInit "dark").currentTheme = "dark" ∧
    (setTheme themeInit "dark").storage = some "dark" :=
  (themeStore_getter_and_setTheme themeInit "dark").2.1 (by decide)

/-- C8: the invariant that currentTheme is a key of themes holds initially
(the name "default" is a defined theme), is preserved by setTheme (an unknown name
leaves the store, including the persisted value, unchanged) and by
loadSavedTheme (a saved name is adopted only when it is a key of themes);
consequently the theme getter yields a defined Theme record in every
reachable state. -/
theorem themeStore_currentTheme_always_defined :
    validTheme themeInit ∧
    (∀ (st : ThemeStore) (n : String), validTheme st → validTheme (setTheme st n)) ∧
    (∀ st : ThemeStore, validTheme st → validTheme (loadSavedTheme st)) ∧
    (∀ (st : ThemeStore) (n : String), themes.lookup n = none → setTheme st n = st) ∧
    (∀ st : ThemeStore, validTheme st → ∃ t : Theme, themeGetter st = some t) := by
  refine ⟨by decide, ?_, ?_, ?_, ?_⟩
  · intro st n h
    rcases hl : themes.lookup n with _ | t
    · simpa [setTheme, hl, validTheme] using h
    · simp [setTheme, hl, validTheme]
  · intro st h
    unfold loadSavedTheme
    set saved := st.storage.getD "" with hs
    by_cases he : saved.isEmpty
    · simpa [he, validTheme] using h
    · rcases hl : themes.lookup saved with _ | t
      · simpa [he, hl, validTheme] using h
      · simp [he, hl, validTheme]
  · intro st n h
    simp [setTheme, h]
  · intro st h
    rcases hg : themeGetter st with _ | t
    · exfalso
      have : (themes.lookup st.currentTheme).isSome = true := h
      rw [show themes.lookup st.currentTheme = themeGetter st from rfl, hg] at this
      simp at this
    · exact ⟨t, rfl⟩

/-- Witness for C8 at concrete states: the invariant survives a setTheme to
"dark" from the initial state, and the getter is defined initially. -/
theorem themeStore_invariant_witness :
    validTheme (setTheme themeInit "dark") ∧
    (∃ t : Theme, themeGetter themeInit = some t) :=
  ⟨themeStore_currentTheme_always_defined.2.1 themeInit "dark" (by decide),
   themeStore_currentTheme_always_defined.2.2.2.2 themeInit (by decide)⟩

/-- C5: the Item interface declared by the template file requires exactly a
numeric id and a string title, and declares description as an optional
string field; no other required field is declared (the remaining member is
the index signature, which requires nothing). -/
theorem itemInterface_id_title_optional_description :
    itemInterfaceFields.filter (fun f => f.required) =
      [{ fname := "id", required := true, ty := TsTy.num },
       { fname := "title", required := true, ty := TsTy.str }] ∧
    ({ fname := "description", required := false, ty := TsTy.str } : FieldSpec)
      ∈ itemInterfaceFields ∧
    itemInterfaceHasIndexSignature = true := by
  decide

/-- C6: every page-registration example shown in the skill documents is an
object with exactly a "path" key holding a string and a "style" key holding
an object whose navigationBarTitleText is a string. -/
theorem pageRegistration_entries_path_and_title :
    pageRegistrationExamples.all pageEntryShape = true ∧
    jget skillPagesEntry "path" = some (JVal.jstr "pages/newpage/index") := by
  exact ⟨rfl, rfl⟩

/-- C7: every SCSS variable referenced by the style block of the page template is
a member of the token set defined by the recommended theme.scss, and that
token set is covered by the four categories color, spacing, typography and
radius, each of which is inhabited. -/
theorem templateStyleVars_subset_of_themeTokens :
    pageTemplateStyleVars.all (fun v => themeScssTokens.contains v) = true ∧
    themeScssTokens.all (fun t => (tokenCategory t).isSome) = true ∧
    themeScssTokens.any
      (fun t => tokenCategory t == some TokenCategory.color) = true ∧
    themeScssTokens.any
      (fun t => tokenCategory t == some TokenCategory.spacing) = true ∧
    themeScssTokens.any
      (fun t => tokenCategory t == some TokenCategory.typography) = true ∧
    themeScssTokens.any
      (fun t => tokenCategory t == some TokenCategory.radius) = true := by
  decide

/-- C9: filteredItems is an order-preserving subsequence of items; each of
its elements passes the active filters (status = currentTab - 1 when
currentTab > 0; case-insensitive title inclusion of searchText when
searchText is non-empty); and with currentTab = 0 and empty searchText,
filteredItems is items itself. -/
theorem filteredItems_subsequence_and_filters
    (items : List ListPageItem) (tab : Nat) (q : String) :
    List.Sublist (filteredItems items tab q) items ∧
    (∀ it ∈ filteredItems items tab q,
      (tab > 0 → it.status = (tab : Int) - 1) ∧
      (q ≠ "" → strIncludes (strToLower it.title) (strToLower q) = true)) ∧
    filteredItems items 0 "" = items := by
  refine ⟨?_, ?_, by simp [filteredItems]⟩
  · unfold filteredItems
    by_cases ht : tab > 0 <;> by_cases hq : q = "" <;>
      simp only [ht, hq, if_pos, if_neg, if_true, if_false, ite_true, ite_false,
        not_false_eq_true, not_true_eq_false] <;>
      first
        | exact List.Sublist.refl _
        | exact List.filter_sublist _
        | exact (List.filter_sublist _).trans (List.filter_sublist _)
  · intro it hmem
    unfold filteredItems at hmem
    constructor
    · intro ht
      by_cases hq : q = ""
      · rw [if_pos hq, if_pos ht] at hmem
        exact beq_iff_eq.mp (List.mem_filter.mp hmem).2
      · rw [if_neg hq, if_pos ht] at hmem
        exact beq_iff_eq.mp (List.mem_filter.mp (List.mem_filter.mp hmem).1).2
    · intro hq
      rw [if_neg hq] at hmem
      exact (List.mem_filter.mp hmem).2

/-- Witness for C9 at a concrete list, tab 1 and query "alp". -/
theorem filteredItems_witness :
    (0 : Int) = ((1 : Nat) : Int) - 1 ∧
    strIncludes (strToLower "Alpha") (strToLower "alp") = true := by
  have h := (filteredItems_subsequence_and_filters
      [{ id := 1, title := "Alpha", status := 0, createdAt := "2024-01-01",
         category := "Box" }] 1 "alp").2.1
      { id := 1, title := "Alpha", status := 0, createdAt := "2024-01-01",
        category := "Box" } (by decide)
  exact ⟨h.1 (by decide), h.2 (by decide)⟩

/-- C10: getStatusText and getStatusType, identical in the list-page and the
detail-page pattern, are total over every numeric status: 0 maps to
"Pending"/"warning", 1 to "Completed"/"success", and every other status to
the fallbacks "Unknown"/"default". -/
theorem getStatus_total_with_fallback (status : Int) :
    ListPage.getStatusText 0 = "Pending" ∧
    ListPage.getStatusType 0 = "warning" ∧
    ListPage.getStatusText 1 = "Completed" ∧
    ListPage.getStatusType 1 = "success" ∧
    DetailPage.getStatusText status = ListPage.getStatusText status ∧
    DetailPage.getStatusType status = ListPage.getStatusType status ∧
    (status ≠ 0 → status ≠ 1 →
      ListPage.getStatusText status = "Unknown" ∧
      ListPage.getStatusType status = "default" ∧
      DetailPage.getStatusText status = "Unknown" ∧
      DetailPage.getStatusType status = "default") := by
  refine ⟨by decide, by decide, by decide, by decide, rfl, rfl, ?_⟩
  intro h0 h1
  have e0 : (status == (0 : Int)) = false := beq_eq_false_iff_ne.mpr h0
  have e1 : (status == (1 : Int)) = false := beq_eq_false_iff_ne.mpr h1
  refine ⟨?_, ?_, ?_, ?_⟩ <;>
    simp [ListPage.getStatusText, ListPage.getStatusType,
      DetailPage.getStatusText, DetailPage.getStatusType,
      ListPage.statusTextMap, ListPage.statusTypeMap,
      List.lookup, e0, e1, ListPage.jsOrElse]

/-- Witness for C10 at the concrete status 5. -/
theorem getStatus_total_witness :
    ListPage.getStatusText 5 = "Unknown" ∧
    ListPage.getStatusType 5 = "default" ∧
    DetailPage.getStatusText 5 = "Unknown" ∧
    DetailPage.getStatusType 5 = "default" :=
  (getStatus_total_with_fallback 5).2.2.2.2.2.2 (by decide) (by decide)

end UniappSkill
